import Mathlib

/-!
Verification of the BibTeX → MODS conversion core (`bibtex_to_mods_app.py`).

The embedding below translates the field-mapping and XML-construction core
of the source file into Lean: `Elem` models an `xml.etree.ElementTree`
element (tag, ordered attribute list, optional text, ordered children);
`Entry` models one parsed BibTeX record as it reaches `entry_to_mods`
(every field optional, author list a list of person records). The Python
code builds the tree by mutation (`ET.SubElement` appends to a parent);
here each code block becomes a function returning the list of elements the
block appends, and `entry_to_mods` concatenates the blocks in the source's
order. The wall-clock timestamp (`datetime.utcnow().isoformat()`) and the
random identifier (`uuid.uuid4()`) are the only impure inputs; they are
passed in as the parameters `now` and `uid`.
-/

namespace BibToMods

/-- The MODS XML namespace string, as in the source. -/
def MODS_NS : String := "http://www.loc.gov/mods/v3"

/-- Qualified tag, modelling the source's f-string `\x7bMODS_NS\x7dtag`
(ElementTree's Clark notation for a namespaced tag). -/
def q (tag : String) : String := "\x7b" ++ MODS_NS ++ "\x7d" ++ tag

/-- One XML element: tag, ordered attributes, optional text, ordered children.
Models an `xml.etree.ElementTree.Element` as the source constructs them. -/
inductive Elem where
  | mk (tag : String) (attrs : List (String × String)) (text : Option String)
      (children : List Elem)

def Elem.tag : Elem → String
  | .mk t _ _ _ => t

def Elem.attrs : Elem → List (String × String)
  | .mk _ a _ _ => a

def Elem.text : Elem → Option String
  | .mk _ _ x _ => x

def Elem.children : Elem → List Elem
  | .mk _ _ _ c => c

/-- A person record carrying ordered given-name and family-name tokens
(the `person.first_names` / `person.last_names` attributes the source reads). -/
structure Person where
  first_names : List String
  last_names : List String
deriving DecidableEq

/-- One parsed BibTeX record as `entry_to_mods` receives it: every field
optional (`none` models the key being absent from the entry dict). -/
structure Entry where
  title : Option String := none
  author_list : List Person := []
  language : Option String := none
  langid : Option String := none
  keywords : Option String := none
  doi : Option String := none
  isbn : Option String := none
  issn : Option String := none
  hdl : Option String := none
  isi : Option String := none
  abstract : Option String := none
  year : Option String := none
  journal : Option String := none
  booktitle : Option String := none
  publisher : Option String := none
  volume : Option String := none
  number : Option String := none
  pages : Option String := none
  status : Option String := none
  url : Option String := none
deriving DecidableEq

/-- Python's single-separator `str.split(sep)` on a character list: splitting
an empty list yields one empty group, every separator occurrence opens a new
group (so adjacent separators yield empty groups), exactly as in Python. -/
def pySplitP (p : Char → Bool) : List Char → List (List Char)
  | [] => [[]]
  | c :: rest =>
    match pySplitP p rest with
    | [] => [[c]]
    | g :: gs => if p c then [] :: g :: gs else (c :: g) :: gs

/-- Python's `s.split(sep)` for a one-character separator (the source only
splits on `","` and `"-"`). -/
def pySplit (sep : Char) (s : String) : List String :=
  (pySplitP (fun c => c = sep) s.data).map fun l => ⟨l⟩

/-- Python's `s.strip()`: drop leading and trailing whitespace. -/
def pyStrip (s : String) : String :=
  ⟨((s.data.dropWhile Char.isWhitespace).reverse.dropWhile Char.isWhitespace).reverse⟩

/-- Python's `s.replace(";", ",")`: a one-character pattern and replacement,
so a character-wise map. -/
def replaceSemi (s : String) : String :=
  ⟨s.data.map fun c => if c = ';' then ',' else c⟩

/-- Python's left-to-right non-overlapping `s.replace("--", "-")` on the
character list: each `--` consumed becomes one `-`. -/
def collapseDashes : List Char → List Char
  | [] => []
  | '-' :: '-' :: rest => '-' :: collapseDashes rest
  | c :: rest => c :: collapseDashes rest

/-- Python's `s.replace("--", "-")`. -/
def replaceDoubleDash (s : String) : String :=
  ⟨collapseDashes s.data⟩

/-- Python truthiness of an optional string: `None` and `""` are falsy. -/
def truthy : Option String → Bool
  | none => false
  | some s => !(s == "")

/-- Python's `a or b` on optional strings: `a` when truthy, else `b`. -/
def py_or (a b : Option String) : Option String :=
  if truthy a then a else b

/-- The source's `add_text(parent, tag, text, **attrib)`: the (zero- or
one-element) list of children the call appends to the parent — a node is
created only when `text` is truthy. -/
def add_text (tag : String) (text : Option String)
    (attrib : List (String × String)) : List Elem :=
  match text with
  | none => []
  | some t => if t = "" then [] else [Elem.mk (q tag) attrib (some t) []]

/-- The source's `split_name(person)`:
`(" ".join(person.first_names), " ".join(person.last_names))`. -/
def split_name (p : Person) : String × String :=
  (String.intercalate " " p.first_names, String.intercalate " " p.last_names)

/-- Title block (`if "title" in entry:` — the `titleInfo` container is
created on key presence; the `title` child only when the value is truthy). -/
def title_block (e : Entry) : List Elem :=
  match e.title with
  | none => []
  | some t => [Elem.mk (q "titleInfo") [] none (add_text "title" (some t) [])]

/-- One `name[type=personal]` element for one person. -/
def name_block (p : Person) : Elem :=
  let gf := split_name p
  Elem.mk (q "name") [("type", "personal")] none
    (add_text "namePart" (some gf.1) [("type", "given")] ++
     add_text "namePart" (some gf.2) [("type", "family")] ++
     [Elem.mk (q "role") [] none
       (add_text "roleTerm" (some "aut") [("authority", "marcrelator"), ("type", "code")] ++
        add_text "roleTerm" (some "author") [("type", "text")])])

/-- The author loop over `entry.get("author_list", [])`. -/
def name_blocks (e : Entry) : List Elem :=
  e.author_list.map name_block

/-- Language block: `lang = entry.get("language") or entry.get("langid")`. -/
def lang_block (e : Entry) : List Elem :=
  let lang := py_or e.language e.langid
  if truthy lang then
    [Elem.mk (q "language") [] none
      (add_text "languageTerm" lang [("authority", "iso639-2b"), ("type", "code")])]
  else []

/-- The keyword normalization read off the source's loop: replace `;` by `,`,
split on `,`, trim, drop empties. -/
def keyword_list (kws : String) : List String :=
  ((pySplit ',' (replaceSemi kws)).map pyStrip).filter (fun s => s ≠ "")

/-- Keyword loop: one `subject/topic` per surviving keyword. -/
def subject_blocks (e : Entry) : List Elem :=
  let kw_source := (e.keywords).getD ""
  (pySplit ',' (replaceSemi kw_source)).filterMap fun kw =>
    if pyStrip kw ≠ "" then
      some (Elem.mk (q "subject") [] none (add_text "topic" (some (pyStrip kw)) []))
    else none

/-- One iteration of the identifier loop: `if typ in entry: add_text(...)`. -/
def ident_one (field_name : String) (v : Option String) : List Elem :=
  match v with
  | none => []
  | some s => add_text "identifier" (some s) [("type", field_name)]

/-- The identifier loop, in the source's fixed order doi, isbn, issn, hdl, isi. -/
def identifier_blocks (e : Entry) : List Elem :=
  ident_one "doi" e.doi ++ ident_one "isbn" e.isbn ++ ident_one "issn" e.issn ++
  ident_one "hdl" e.hdl ++ ident_one "isi" e.isi

/-- Abstract: `add_text(mods, "abstract", entry.get("abstract"))`. -/
def abstract_block (e : Entry) : List Elem :=
  add_text "abstract" e.abstract []

/-- Origin info: the `originInfo` container is created when `year` is present. -/
def origin_block (e : Entry) : List Elem :=
  match e.year with
  | none => []
  | some y => [Elem.mk (q "originInfo") [] none (add_text "dateIssued" (some y) [])]

/-- Host title resolution: `entry.get("journal") or entry.get("booktitle") or
entry.get("publisher")`. -/
def host_title (e : Entry) : Option String :=
  py_or (py_or e.journal e.booktitle) e.publisher

/-- The page-range split: `start, *end = pages.replace("--", "-").split("-")`,
with `end[0] if end else start`. -/
def page_range (pages : String) : String × String :=
  match pySplit '-' (replaceDoubleDash pages) with
  | [] => ("", "")
  | s :: rest => (s, rest.headD s)

/-- The extent element, created exactly when the `pages` key is present. -/
def extent_block (e : Entry) : List Elem :=
  match e.pages with
  | none => []
  | some p =>
    let pr := page_range p
    [Elem.mk (q "extent") [("unit", "page")] none
      (add_text "start" (some pr.1) [] ++ add_text "end" (some pr.2) [])]

/-- The `part` element, created unconditionally inside the host block. -/
def part_elem (e : Entry) : Elem :=
  Elem.mk (q "part") [] none
    (add_text "detail" e.volume [("type", "volume")] ++
     add_text "detail" e.number [("type", "issue")] ++
     extent_block e ++
     add_text "date" e.year [])

/-- The host `relatedItem[type=host]` element (assuming the host title is
truthy: its contents as the source builds them). -/
def host_elem (e : Entry) : Elem :=
  Elem.mk (q "relatedItem") [("type", "host")] none
    ([Elem.mk (q "titleInfo") [] none (add_text "title" (host_title e) [])] ++
     (match e.issn with
      | none => []
      | some s => add_text "identifier" (some s) [("type", "issn")]) ++
     [part_elem e])

/-- Host block: `if host_title:`. -/
def host_block (e : Entry) : List Elem :=
  if truthy (host_title e) then [host_elem e] else []

/-- Publication status note. -/
def note_block (e : Entry) : List Elem :=
  add_text "note" e.status [("type", "publicationStatus")]

/-- Location block: the `location` container is created when `url` is present. -/
def location_block (e : Entry) : List Elem :=
  match e.url with
  | none => []
  | some u => [Elem.mk (q "location") [] none (add_text "url" (some u) [])]

/-- The unconditional `recordInfo` block; `now` stands for
`datetime.utcnow().isoformat()` and `uid` for `str(uuid.uuid4())`. -/
def record_info (now uid : String) : Elem :=
  Elem.mk (q "recordInfo") [] none
    (add_text "recordContentSource" (some "streamlit-converter") [] ++
     add_text "recordCreationDate" (some (now ++ "Z")) [("encoding", "iso8601")] ++
     add_text "recordChangeDate" (some (now ++ "Z")) [("encoding", "iso8601")] ++
     add_text "recordIdentifier" (some uid) [])

/-- The source's `entry_to_mods(entry)`: one `mods` element, its children the
concatenation of the source's blocks in code order. -/
def entry_to_mods (e : Entry) (now uid : String) : Elem :=
  Elem.mk (q "mods") [("version", "3.3")] none
    (title_block e ++ name_blocks e ++ lang_block e ++ subject_blocks e ++
     identifier_blocks e ++ abstract_block e ++ origin_block e ++ host_block e ++
     note_block e ++ location_block e ++ [record_info now uid] ++
     add_text "typeOfResource" (some "text") [])

/-- The collection loop of `bibtex_to_mods`: one `mods` child per entry, in
input order; the per-record impure inputs (timestamp, uuid) are injected as
the list `gens`, consumed positionally. -/
def build_collection (entries : List Entry) (gens : List (String × String)) : Elem :=
  Elem.mk (q "modsCollection") [] none
    ((entries.zip gens).map fun eg => entry_to_mods eg.1 eg.2.1 eg.2.2)

/-- Modelled from the spec: the splitting of one raw author-name string into
(given, family). The code that performs this split is the external
`bibtexparser` `author` customization, which is not a file of this
repository; the spec (§3 PersonName) gives the rule: if the string contains
a comma, the text before the first comma is the family name and the
remainder is the given name(s); otherwise the last whitespace-delimited
token is the family name and all preceding tokens are the given name(s). -/
def split_raw_name (s : String) : String × String :=
  if (',') ∈ s.data then
    (pyStrip ⟨(s.data.dropWhile fun c => c ≠ ',').drop 1⟩,
     pyStrip ⟨s.data.takeWhile fun c => c ≠ ','⟩)
  else
    let toks := ((pySplitP Char.isWhitespace s.data).map fun l => (⟨l⟩ : String)).filter
      fun t => t ≠ ""
    match toks.getLast? with
    | none => ("", "")
    | some fam => (String.intercalate " " toks.dropLast, fam)

/-- The identifier sequence as the spec's words describe it (amended to
"present and non-empty"): the fields checked in the fixed order doi, isbn,
issn, hdl, isi, each present non-empty field yielding exactly one
`identifier` node whose `type` attribute is the field name. Stated
independently of the builder so the builder can be proved to refine it. -/
def expected_identifiers (e : Entry) : List Elem :=
  ([("doi", e.doi), ("isbn", e.isbn), ("issn", e.issn),
    ("hdl", e.hdl), ("isi", e.isi)]).filterMap fun pr =>
    match pr.2 with
    | none => none
    | some v =>
      if v = "" then none
      else some (Elem.mk (q "identifier") [("type", pr.1)] (some v) [])

/-- XML text escaping of the markup-significant characters. -/
def xml_escape (s : String) : String :=
  ⟨s.data.foldr (fun c acc =>
    match c with
    | '&' => '&' :: 'a' :: 'm' :: 'p' :: ';' :: acc
    | '<' => '&' :: 'l' :: 't' :: ';' :: acc
    | '>' => '&' :: 'g' :: 't' :: ';' :: acc
    | c => c :: acc) []⟩

/-- Attribute rendering in construction order. -/
def render_attrs : List (String × String) → String
  | [] => ""
  | (k, v) :: rest => " " ++ k ++ "=\x22" ++ xml_escape v ++ "\x22" ++ render_attrs rest

/-- Modelled from the spec: the Serializer (§4.3). The source delegates
serialization to `xml.dom.minidom`'s pretty printer (external library, not a
file of this repository); per the spec it renders the tree with two-space
indentation, attributes in construction order, and standard text escaping —
a deterministic function of the tree, which is all the claims rely on. -/
def serialize_elem (ind : Nat) : Elem → String
  | Elem.mk tag attrs text children =>
    let pad := String.join (List.replicate ind "  ")
    let openTag := pad ++ "<" ++ tag ++ render_attrs attrs
    match text, children with
    | none, [] => openTag ++ "/>\n"
    | some t, [] => openTag ++ ">" ++ xml_escape t ++ "</" ++ tag ++ ">\n"
    | t?, cs =>
      let inner := (cs.attach.map fun c => serialize_elem (ind + 1) c.1).foldl
        (fun a b => a ++ b) ""
      openTag ++ ">" ++ (match t? with | none => "" | some t => xml_escape t) ++ "\n" ++
        inner ++ pad ++ "</" ++ tag ++ ">\n"
termination_by e => sizeOf e
decreasing_by
  simp_wf
  have h := List.sizeOf_lt_of_mem c.2
  omega

/-- The serialized document, with minidom's XML declaration line. -/
def serialize (root : Elem) : String :=
  "<?xml version=\x221.0\x22 ?>\n" ++ serialize_elem 0 root

/-- The source's `bibtex_to_mods` after the external BibTeX parse: the parsed
entries go through `entry_to_mods` in order and the collection is serialized.
The per-record impure inputs are the injected `gens`. -/
def bibtex_to_mods (entries : List Entry) (gens : List (String × String)) : String :=
  serialize (build_collection entries gens)

/-- Number of direct children of a node list carrying a given tag. -/
def countTag (t : String) (l : List Elem) : Nat :=
  l.countP fun c => c.tag == t

lemma countTag_append (t : String) (l₁ l₂ : List Elem) :
    countTag t (l₁ ++ l₂) = countTag t l₁ + countTag t l₂ :=
  List.countP_append _ _ _

lemma countTag_eq_zero_of_tag {u t : String} {l : List Elem}
    (htags : ∀ c ∈ l, c.tag = u) (hne : u ≠ t) : countTag t l = 0 := by
  refine List.countP_eq_zero.mpr fun c hc => ?_
  have := htags c hc
  simp [this, hne]

lemma tag_of_mem_add_text {c : Elem} {tg : String} {tx : Option String}
    {ab : List (String × String)} (h : c ∈ add_text tg tx ab) : c.tag = q tg := by
  unfold add_text at h
  cases tx with
  | none => simp at h
  | some t =>
    by_cases ht : t = ""
    · simp [ht] at h
    · simp [ht] at h
      subst h
      rfl

lemma tag_of_mem_title_block {e : Entry} {c : Elem} (h : c ∈ title_block e) :
    c.tag = q "titleInfo" := by
  unfold title_block at h
  split at h
  · simp at h
  · simp at h
    subst h
    rfl

lemma tag_of_mem_name_blocks {e : Entry} {c : Elem} (h : c ∈ name_blocks e) :
    c.tag = q "name" := by
  unfold name_blocks at h
  obtain ⟨p, _, rfl⟩ := List.mem_map.mp h
  rfl

lemma tag_of_mem_lang_block {e : Entry} {c : Elem} (h : c ∈ lang_block e) :
    c.tag = q "language" := by
  unfold lang_block at h
  dsimp only at h
  split at h
  · simp at h
    subst h
    rfl
  · simp at h

lemma tag_of_mem_subject_blocks {e : Entry} {c : Elem} (h : c ∈ subject_blocks e) :
    c.tag = q "subject" := by
  unfold subject_blocks at h
  obtain ⟨kw, _, hkw⟩ := List.mem_filterMap.mp h
  split at hkw
  · simp at hkw
    subst hkw
    rfl
  · simp at hkw

lemma tag_of_mem_ident_one {f : String} {v : Option String} {c : Elem}
    (h : c ∈ ident_one f v) : c.tag = q "identifier" := by
  unfold ident_one at h
  cases v with
  | none => simp at h
  | some s => exact tag_of_mem_add_text h

lemma tag_of_mem_identifier_blocks {e : Entry} {c : Elem}
    (h : c ∈ identifier_blocks e) : c.tag = q "identifier" := by
  unfold identifier_blocks at h
  simp only [List.mem_append] at h
  rcases h with ((((h | h) | h) | h) | h) <;> exact tag_of_mem_ident_one h

lemma tag_of_mem_abstract_block {e : Entry} {c : Elem} (h : c ∈ abstract_block e) :
    c.tag = q "abstract" :=
  tag_of_mem_add_text h

lemma tag_of_mem_origin_block {e : Entry} {c : Elem} (h : c ∈ origin_block e) :
    c.tag = q "originInfo" := by
  unfold origin_block at h
  split at h
  · simp at h
  · simp at h
    subst h
    rfl

lemma tag_of_mem_host_block {e : Entry} {c : Elem} (h : c ∈ host_block e) :
    c.tag = q "relatedItem" := by
  unfold host_block at h
  split at h
  · simp at h
    subst h
    rfl
  · simp at h

lemma tag_of_mem_note_block {e : Entry} {c : Elem} (h : c ∈ note_block e) :
    c.tag = q "note" :=
  tag_of_mem_add_text h

lemma tag_of_mem_location_block {e : Entry} {c : Elem} (h : c ∈ location_block e) :
    c.tag = q "location" := by
  unfold location_block at h
  split at h
  · simp at h
  · simp at h
    subst h
    rfl

lemma record_info_tag (now uid : String) : (record_info now uid).tag = q "recordInfo" :=
  rfl

lemma countTag_singleton (t : String) (c : Elem) :
    countTag t [c] = if c.tag == t then 1 else 0 := by
  simp [countTag, List.countP_cons, List.countP_nil]

lemma countTag_add_text_self (tg : String) (tx : Option String)
    (ab : List (String × String)) :
    countTag (q tg) (add_text tg tx ab) = if truthy tx then 1 else 0 := by
  unfold add_text truthy
  cases tx with
  | none => simp [countTag]
  | some t =>
    by_cases ht : t = "" <;>
      simp [ht, countTag, List.countP_cons, Elem.tag]

lemma countTag_children (t : String) (e : Entry) (now uid : String) :
    countTag t (entry_to_mods e now uid).children =
      countTag t (title_block e) + countTag t (name_blocks e) +
      countTag t (lang_block e) + countTag t (subject_blocks e) +
      countTag t (identifier_blocks e) + countTag t (abstract_block e) +
      countTag t (origin_block e) + countTag t (host_block e) +
      countTag t (note_block e) + countTag t (location_block e) +
      countTag t [record_info now uid] +
      countTag t (add_text "typeOfResource" (some "text") []) := by
  simp only [entry_to_mods, Elem.children, countTag_append]

lemma countTag_title_block (e : Entry) :
    countTag (q "titleInfo") (title_block e) = if e.title.isSome then 1 else 0 := by
  unfold title_block
  cases e.title <;>
    simp [countTag, List.countP_cons, Elem.tag]

lemma filter_tag_eq_nil_of_tag {u t : String} {l : List Elem}
    (htags : ∀ c ∈ l, c.tag = u) (hne : u ≠ t) :
    (l.filter fun c => c.tag == t) = [] := by
  refine List.filter_eq_nil_iff.mpr fun c hc => ?_
  simp [htags c hc, hne]

lemma filter_tag_eq_self_of_tag {t : String} {l : List Elem}
    (htags : ∀ c ∈ l, c.tag = t) :
    (l.filter fun c => c.tag == t) = l := by
  refine List.filter_eq_self.mpr fun c hc => ?_
  simp [htags c hc]

lemma filter_tag_children (t : String) (e : Entry) (now uid : String) :
    ((entry_to_mods e now uid).children.filter fun c => c.tag == t) =
      ((title_block e).filter fun c => c.tag == t) ++
      ((name_blocks e).filter fun c => c.tag == t) ++
      ((lang_block e).filter fun c => c.tag == t) ++
      ((subject_blocks e).filter fun c => c.tag == t) ++
      ((identifier_blocks e).filter fun c => c.tag == t) ++
      ((abstract_block e).filter fun c => c.tag == t) ++
      ((origin_block e).filter fun c => c.tag == t) ++
      ((host_block e).filter fun c => c.tag == t) ++
      ((note_block e).filter fun c => c.tag == t) ++
      ((location_block e).filter fun c => c.tag == t) ++
      ([record_info now uid].filter fun c => c.tag == t) ++
      ((add_text "typeOfResource" (some "text") []).filter fun c => c.tag == t) := by
  simp only [entry_to_mods, Elem.children, List.filter_append, List.append_assoc]

lemma le_length_intercalate_go (s : String) (l : List String) :
    ∀ acc : String, acc.length ≤ (String.intercalate.go acc s l).length := by
  induction l with
  | nil =>
    intro acc
    simp [String.intercalate.go]
  | cons a l ih =>
    intro acc
    rw [show String.intercalate.go acc s (a :: l) =
        String.intercalate.go (acc ++ s ++ a) s l from by simp [String.intercalate.go]]
    have h := ih (acc ++ s ++ a)
    simp only [String.length_append] at h
    omega

lemma intercalate_space_eq_empty_iff (l : List String) :
    String.intercalate " " l = "" ↔ l = [] ∨ l = [""] := by
  constructor
  · intro h
    match l with
    | [] => exact Or.inl rfl
    | [a] =>
      right
      rw [show String.intercalate " " [a] = a from by
        simp [String.intercalate, String.intercalate.go]] at h
      rw [h]
    | a :: b :: t =>
      exfalso
      rw [show String.intercalate " " (a :: b :: t) =
          String.intercalate.go (a ++ " " ++ b) " " t from by
        simp [String.intercalate, String.intercalate.go]] at h
      have hlen := le_length_intercalate_go " " t (a ++ " " ++ b)
      rw [h] at hlen
      simp [String.length_append] at hlen
      exact absurd hlen.1.2 (by decide)
  · rintro (rfl | rfl) <;> rfl

lemma subject_blocks_eq_map (e : Entry) :
    subject_blocks e = (keyword_list ((e.keywords).getD "")).map
      (fun k => Elem.mk (q "subject") [] none [Elem.mk (q "topic") [] (some k) []]) := by
  unfold subject_blocks keyword_list
  dsimp only
  generalize pySplit ',' (replaceSemi ((e.keywords).getD "")) = l
  induction l with
  | nil => simp
  | cons a l ih =>
    simp only [List.filterMap_cons, List.map_cons, List.filter_cons]
    by_cases ha : pyStrip a = ""
    · simp [ha]
      simpa using ih
    · have hadd : add_text "topic" (some (pyStrip a)) [] =
          [Elem.mk (q "topic") [] (some (pyStrip a)) []] := by
        simp [add_text, ha]
      simp [ha, hadd]
      simpa using ih

lemma ident_one_eq (f : String) (v : Option String) :
    ident_one f v =
      match v with
      | none => []
      | some s =>
        if s = "" then []
        else [Elem.mk (q "identifier") [("type", f)] (some s) []] := by
  cases v <;> simp [ident_one, add_text]

lemma filterMap_ident_pairs (ps : List (String × Option String)) :
    (ps.filterMap fun pr =>
      match pr.2 with
      | none => none
      | some v =>
        if v = "" then none
        else some (Elem.mk (q "identifier") [("type", pr.1)] (some v) [])) =
    (ps.map fun pr => ident_one pr.1 pr.2).flatten := by
  induction ps with
  | nil => simp
  | cons p ps ih =>
    cases hp : p.2 with
    | none => simp [List.filterMap_cons, hp, ih, ident_one]
    | some v =>
      by_cases hv : v = "" <;>
        simp [List.filterMap_cons, hp, hv, ih, ident_one, add_text]

lemma identifier_blocks_eq (e : Entry) : identifier_blocks e = expected_identifiers e := by
  unfold identifier_blocks expected_identifiers
  rw [filterMap_ident_pairs]
  simp [List.append_assoc]

lemma host_block_of_truthy {e : Entry} (h : truthy (host_title e) = true) :
    host_block e = [host_elem e] := by
  unfold host_block
  simp [h]

lemma countTag_titleInfo_children (e : Entry) (now uid : String) :
    countTag (q "titleInfo") (entry_to_mods e now uid).children =
      if e.title.isSome then 1 else 0 := by
  have h2 : countTag (q "titleInfo") (name_blocks e) = 0 :=
    countTag_eq_zero_of_tag (fun c hc => tag_of_mem_name_blocks hc) (by decide)
  have h3 : countTag (q "titleInfo") (lang_block e) = 0 :=
    countTag_eq_zero_of_tag (fun c hc => tag_of_mem_lang_block hc) (by decide)
  have h4 : countTag (q "titleInfo") (subject_blocks e) = 0 :=
    countTag_eq_zero_of_tag (fun c hc => tag_of_mem_subject_blocks hc) (by decide)
  have h5 : countTag (q "titleInfo") (identifier_blocks e) = 0 :=
    countTag_eq_zero_of_tag (fun c hc => tag_of_mem_identifier_blocks hc) (by decide)
  have h6 : countTag (q "titleInfo") (abstract_block e) = 0 :=
    countTag_eq_zero_of_tag (fun c hc => tag_of_mem_abstract_block hc) (by decide)
  have h7 : countTag (q "titleInfo") (origin_block e) = 0 :=
    countTag_eq_zero_of_tag (fun c hc => tag_of_mem_origin_block hc) (by decide)
  have h8 : countTag (q "titleInfo") (host_block e) = 0 :=
    countTag_eq_zero_of_tag (fun c hc => tag_of_mem_host_block hc) (by decide)
  have h9 : countTag (q "titleInfo") (note_block e) = 0 :=
    countTag_eq_zero_of_tag (fun c hc => tag_of_mem_note_block hc) (by decide)
  have h10 : countTag (q "titleInfo") (location_block e) = 0 :=
    countTag_eq_zero_of_tag (fun c hc => tag_of_mem_location_block hc) (by decide)
  have h11 : countTag (q "titleInfo") [record_info now uid] = 0 := by
    rw [countTag_singleton, record_info_tag]
    decide
  have h12 : countTag (q "titleInfo") (add_text "typeOfResource" (some "text") []) = 0 :=
    countTag_eq_zero_of_tag (fun c hc => tag_of_mem_add_text hc) (by decide)
  rw [countTag_children, countTag_title_block, h2, h3, h4, h5, h6, h7, h8, h9, h10,
    h11, h12]
  omega

lemma countTag_abstract_children (e : Entry) (now uid : String) :
    countTag (q "abstract") (entry_to_mods e now uid).children =
      if truthy e.abstract then 1 else 0 := by
  have h1 : countTag (q "abstract") (title_block e) = 0 :=
    countTag_eq_zero_of_tag (fun c hc => tag_of_mem_title_block hc) (by decide)
  have h2 : countTag (q "abstract") (name_blocks e) = 0 :=
    countTag_eq_zero_of_tag (fun c hc => tag_of_mem_name_blocks hc) (by decide)
  have h3 : countTag (q "abstract") (lang_block e) = 0 :=
    countTag_eq_zero_of_tag (fun c hc => tag_of_mem_lang_block hc) (by decide)
  have h4 : countTag (q "abstract") (subject_blocks e) = 0 :=
    countTag_eq_zero_of_tag (fun c hc => tag_of_mem_subject_blocks hc) (by decide)
  have h5 : countTag (q "abstract") (identifier_blocks e) = 0 :=
    countTag_eq_zero_of_tag (fun c hc => tag_of_mem_identifier_blocks hc) (by decide)
  have h6 : countTag (q "abstract") (abstract_block e) = if truthy e.abstract then 1 else 0 :=
    countTag_add_text_self "abstract" e.abstract []
  have h7 : countTag (q "abstract") (origin_block e) = 0 :=
    countTag_eq_zero_of_tag (fun c hc => tag_of_mem_origin_block hc) (by decide)
  have h8 : countTag (q "abstract") (host_block e) = 0 :=
    countTag_eq_zero_of_tag (fun c hc => tag_of_mem_host_block hc) (by decide)
  have h9 : countTag (q "abstract") (note_block e) = 0 :=
    countTag_eq_zero_of_tag (fun c hc => tag_of_mem_note_block hc) (by decide)
  have h10 : countTag (q "abstract") (location_block e) = 0 :=
    countTag_eq_zero_of_tag (fun c hc => tag_of_mem_location_block hc) (by decide)
  have h11 : countTag (q "abstract") [record_info now uid] = 0 := by
    rw [countTag_singleton, record_info_tag]
    decide
  have h12 : countTag (q "abstract") (add_text "typeOfResource" (some "text") []) = 0 :=
    countTag_eq_zero_of_tag (fun c hc => tag_of_mem_add_text hc) (by decide)
  rw [countTag_children, h1, h2, h3, h4, h5, h6, h7, h8, h9, h10, h11, h12]
  omega

lemma countTag_note_children (e : Entry) (now uid : String) :
    countTag (q "note") (entry_to_mods e now uid).children =
      if truthy e.status then 1 else 0 := by
  have h1 : countTag (q "note") (title_block e) = 0 :=
    countTag_eq_zero_of_tag (fun c hc => tag_of_mem_title_block hc) (by decide)
  have h2 : countTag (q "note") (name_blocks e) = 0 :=
    countTag_eq_zero_of_tag (fun c hc => tag_of_mem_name_blocks hc) (by decide)
  have h3 : countTag (q "note") (lang_block e) = 0 :=
    countTag_eq_zero_of_tag (fun c hc => tag_of_mem_lang_block hc) (by decide)
  have h4 : countTag (q "note") (subject_blocks e) = 0 :=
    countTag_eq_zero_of_tag (fun c hc => tag_of_mem_subject_blocks hc) (by decide)
  have h5 : countTag (q "note") (identifier_blocks e) = 0 :=
    countTag_eq_zero_of_tag (fun c hc => tag_of_mem_identifier_blocks hc) (by decide)
  have h6 : countTag (q "note") (abstract_block e) = 0 :=
    countTag_eq_zero_of_tag (fun c hc => tag_of_mem_abstract_block hc) (by decide)
  have h7 : countTag (q "note") (origin_block e) = 0 :=
    countTag_eq_zero_of_tag (fun c hc => tag_of_mem_origin_block hc) (by decide)
  have h8 : countTag (q "note") (host_block e) = 0 :=
    countTag_eq_zero_of_tag (fun c hc => tag_of_mem_host_block hc) (by decide)
  have h9 : countTag (q "note") (note_block e) = if truthy e.status then 1 else 0 :=
    countTag_add_text_self "note" e.status [("type", "publicationStatus")]
  have h10 : countTag (q "note") (location_block e) = 0 :=
    countTag_eq_zero_of_tag (fun c hc => tag_of_mem_location_block hc) (by decide)
  have h11 : countTag (q "note") [record_info now uid] = 0 := by
    rw [countTag_singleton, record_info_tag]
    decide
  have h12 : countTag (q "note") (add_text "typeOfResource" (some "text") []) = 0 :=
    countTag_eq_zero_of_tag (fun c hc => tag_of_mem_add_text hc) (by decide)
  rw [countTag_children, h1, h2, h3, h4, h5, h6, h7, h8, h9, h10, h11, h12]
  omega

lemma countTag_recordInfo_children (e : Entry) (now uid : String) :
    countTag (q "recordInfo") (entry_to_mods e now uid).children = 1 := by
  have h1 : countTag (q "recordInfo") (title_block e) = 0 :=
    countTag_eq_zero_of_tag (fun c hc => tag_of_mem_title_block hc) (by decide)
  have h2 : countTag (q "recordInfo") (name_blocks e) = 0 :=
    countTag_eq_zero_of_tag (fun c hc => tag_of_mem_name_blocks hc) (by decide)
  have h3 : countTag (q "recordInfo") (lang_block e) = 0 :=
    countTag_eq_zero_of_tag (fun c hc => tag_of_mem_lang_block hc) (by decide)
  have h4 : countTag (q "recordInfo") (subject_blocks e) = 0 :=
    countTag_eq_zero_of_tag (fun c hc => tag_of_mem_subject_blocks hc) (by decide)
  have h5 : countTag (q "recordInfo") (identifier_blocks e) = 0 :=
    countTag_eq_zero_of_tag (fun c hc => tag_of_mem_identifier_blocks hc) (by decide)
  have h6 : countTag (q "recordInfo") (abstract_block e) = 0 :=
    countTag_eq_zero_of_tag (fun c hc => tag_of_mem_abstract_block hc) (by decide)
  have h7 : countTag (q "recordInfo") (origin_block e) = 0 :=
    countTag_eq_zero_of_tag (fun c hc => tag_of_mem_origin_block hc) (by decide)
  have h8 : countTag (q "recordInfo") (host_block e) = 0 :=
    countTag_eq_zero_of_tag (fun c hc => tag_of_mem_host_block hc) (by decide)
  have h9 : countTag (q "recordInfo") (note_block e) = 0 :=
    countTag_eq_zero_of_tag (fun c hc => tag_of_mem_note_block hc) (by decide)
  have h10 : countTag (q "recordInfo") (location_block e) = 0 :=
    countTag_eq_zero_of_tag (fun c hc => tag_of_mem_location_block hc) (by decide)
  have h11 : countTag (q "recordInfo") [record_info now uid] = 1 := by
    rw [countTag_singleton, record_info_tag]
    decide
  have h12 : countTag (q "recordInfo") (add_text "typeOfResource" (some "text") []) = 0 :=
    countTag_eq_zero_of_tag (fun c hc => tag_of_mem_add_text hc) (by decide)
  rw [countTag_children, h1, h2, h3, h4, h5, h6, h7, h8, h9, h10, h11, h12]

lemma countTag_typeOfResource_children (e : Entry) (now uid : String) :
    countTag (q "typeOfResource") (entry_to_mods e now uid).children = 1 := by
  have h1 : countTag (q "typeOfResource") (title_block e) = 0 :=
    countTag_eq_zero_of_tag (fun c hc => tag_of_mem_title_block hc) (by decide)
  have h2 : countTag (q "typeOfResource") (name_blocks e) = 0 :=
    countTag_eq_zero_of_tag (fun c hc => tag_of_mem_name_blocks hc) (by decide)
  have h3 : countTag (q "typeOfResource") (lang_block e) = 0 :=
    countTag_eq_zero_of_tag (fun c hc => tag_of_mem_lang_block hc) (by decide)
  have h4 : countTag (q "typeOfResource") (subject_blocks e) = 0 :=
    countTag_eq_zero_of_tag (fun c hc => tag_of_mem_subject_blocks hc) (by decide)
  have h5 : countTag (q "typeOfResource") (identifier_blocks e) = 0 :=
    countTag_eq_zero_of_tag (fun c hc => tag_of_mem_identifier_blocks hc) (by decide)
  have h6 : countTag (q "typeOfResource") (abstract_block e) = 0 :=
    countTag_eq_zero_of_tag (fun c hc => tag_of_mem_abstract_block hc) (by decide)
  have h7 : countTag (q "typeOfResource") (origin_block e) = 0 :=
    countTag_eq_zero_of_tag (fun c hc => tag_of_mem_origin_block hc) (by decide)
  have h8 : countTag (q "typeOfResource") (host_block e) = 0 :=
    countTag_eq_zero_of_tag (fun c hc => tag_of_mem_host_block hc) (by decide)
  have h9 : countTag (q "typeOfResource") (note_block e) = 0 :=
    countTag_eq_zero_of_tag (fun c hc => tag_of_mem_note_block hc) (by decide)
  have h10 : countTag (q "typeOfResource") (location_block e) = 0 :=
    countTag_eq_zero_of_tag (fun c hc => tag_of_mem_location_block hc) (by decide)
  have h11 : countTag (q "typeOfResource") [record_info now uid] = 0 := by
    rw [countTag_singleton, record_info_tag]
    decide
  have h12 : countTag (q "typeOfResource") (add_text "typeOfResource" (some "text") []) = 1 := by
    rw [countTag_add_text_self]
    decide
  rw [countTag_children, h1, h2, h3, h4, h5, h6, h7, h8, h9, h10, h11, h12]

lemma tag_of_mem_record_info_singleton {now uid : String} {c : Elem}
    (hc : c ∈ [record_info now uid]) : c.tag = q "recordInfo" := by
  simp at hc
  subst hc
  rfl

lemma countTag_origin_block (e : Entry) :
    countTag (q "originInfo") (origin_block e) = if e.year.isSome then 1 else 0 := by
  unfold origin_block
  cases e.year <;>
    simp [countTag, List.countP_cons, Elem.tag]

lemma countTag_location_block (e : Entry) :
    countTag (q "location") (location_block e) = if e.url.isSome then 1 else 0 := by
  unfold location_block
  cases e.url <;>
    simp [countTag, List.countP_cons, Elem.tag]

lemma countTag_originInfo_children (e : Entry) (now uid : String) :
    countTag (q "originInfo") (entry_to_mods e now uid).children =
      if e.year.isSome then 1 else 0 := by
  have h1 : countTag (q "originInfo") (title_block e) = 0 :=
    countTag_eq_zero_of_tag (fun c hc => tag_of_mem_title_block hc) (by decide)
  have h2 : countTag (q "originInfo") (name_blocks e) = 0 :=
    countTag_eq_zero_of_tag (fun c hc => tag_of_mem_name_blocks hc) (by decide)
  have h3 : countTag (q "originInfo") (lang_block e) = 0 :=
    countTag_eq_zero_of_tag (fun c hc => tag_of_mem_lang_block hc) (by decide)
  have h4 : countTag (q "originInfo") (subject_blocks e) = 0 :=
    countTag_eq_zero_of_tag (fun c hc => tag_of_mem_subject_blocks hc) (by decide)
  have h5 : countTag (q "originInfo") (identifier_blocks e) = 0 :=
    countTag_eq_zero_of_tag (fun c hc => tag_of_mem_identifier_blocks hc) (by decide)
  have h6 : countTag (q "originInfo") (abstract_block e) = 0 :=
    countTag_eq_zero_of_tag (fun c hc => tag_of_mem_abstract_block hc) (by decide)
  have h8 : countTag (q "originInfo") (host_block e) = 0 :=
    countTag_eq_zero_of_tag (fun c hc => tag_of_mem_host_block hc) (by decide)
  have h9 : countTag (q "originInfo") (note_block e) = 0 :=
    countTag_eq_zero_of_tag (fun c hc => tag_of_mem_note_block hc) (by decide)
  have h10 : countTag (q "originInfo") (location_block e) = 0 :=
    countTag_eq_zero_of_tag (fun c hc => tag_of_mem_location_block hc) (by decide)
  have h11 : countTag (q "originInfo") [record_info now uid] = 0 := by
    rw [countTag_singleton, record_info_tag]
    decide
  have h12 : countTag (q "originInfo") (add_text "typeOfResource" (some "text") []) = 0 :=
    countTag_eq_zero_of_tag (fun c hc => tag_of_mem_add_text hc) (by decide)
  rw [countTag_children, countTag_origin_block, h1, h2, h3, h4, h5, h6, h8, h9, h10,
    h11, h12]
  omega

lemma countTag_location_children (e : Entry) (now uid : String) :
    countTag (q "location") (entry_to_mods e now uid).children =
      if e.url.isSome then 1 else 0 := by
  have h1 : countTag (q "location") (title_block e) = 0 :=
    countTag_eq_zero_of_tag (fun c hc => tag_of_mem_title_block hc) (by decide)
  have h2 : countTag (q "location") (name_blocks e) = 0 :=
    countTag_eq_zero_of_tag (fun c hc => tag_of_mem_name_blocks hc) (by decide)
  have h3 : countTag (q "location") (lang_block e) = 0 :=
    countTag_eq_zero_of_tag (fun c hc => tag_of_mem_lang_block hc) (by decide)
  have h4 : countTag (q "location") (subject_blocks e) = 0 :=
    countTag_eq_zero_of_tag (fun c hc => tag_of_mem_subject_blocks hc) (by decide)
  have h5 : countTag (q "location") (identifier_blocks e) = 0 :=
    countTag_eq_zero_of_tag (fun c hc => tag_of_mem_identifier_blocks hc) (by decide)
  have h6 : countTag (q "location") (abstract_block e) = 0 :=
    countTag_eq_zero_of_tag (fun c hc => tag_of_mem_abstract_block hc) (by decide)
  have h7 : countTag (q "location") (origin_block e) = 0 :=
    countTag_eq_zero_of_tag (fun c hc => tag_of_mem_origin_block hc) (by decide)
  have h8 : countTag (q "location") (host_block e) = 0 :=
    countTag_eq_zero_of_tag (fun c hc => tag_of_mem_host_block hc) (by decide)
  have h9 : countTag (q "location") (note_block e) = 0 :=
    countTag_eq_zero_of_tag (fun c hc => tag_of_mem_note_block hc) (by decide)
  have h11 : countTag (q "location") [record_info now uid] = 0 := by
    rw [countTag_singleton, record_info_tag]
    decide
  have h12 : countTag (q "location") (add_text "typeOfResource" (some "text") []) = 0 :=
    countTag_eq_zero_of_tag (fun c hc => tag_of_mem_add_text hc) (by decide)
  rw [countTag_children, countTag_location_block, h1, h2, h3, h4, h5, h6, h7, h8, h9,
    h11, h12]
  omega

lemma filter_subject_children (e : Entry) (now uid : String) :
    ((entry_to_mods e now uid).children.filter fun c => c.tag == q "subject") =
      subject_blocks e := by
  have h1 : ((title_block e).filter fun c => c.tag == q "subject") = [] :=
    filter_tag_eq_nil_of_tag (fun c hc => tag_of_mem_title_block hc) (by decide)
  have h2 : ((name_blocks e).filter fun c => c.tag == q "subject") = [] :=
    filter_tag_eq_nil_of_tag (fun c hc => tag_of_mem_name_blocks hc) (by decide)
  have h3 : ((lang_block e).filter fun c => c.tag == q "subject") = [] :=
    filter_tag_eq_nil_of_tag (fun c hc => tag_of_mem_lang_block hc) (by decide)
  have h4 : ((subject_blocks e).filter fun c => c.tag == q "subject") = subject_blocks e :=
    filter_tag_eq_self_of_tag fun c hc => tag_of_mem_subject_blocks hc
  have h5 : ((identifier_blocks e).filter fun c => c.tag == q "subject") = [] :=
    filter_tag_eq_nil_of_tag (fun c hc => tag_of_mem_identifier_blocks hc) (by decide)
  have h6 : ((abstract_block e).filter fun c => c.tag == q "subject") = [] :=
    filter_tag_eq_nil_of_tag (fun c hc => tag_of_mem_abstract_block hc) (by decide)
  have h7 : ((origin_block e).filter fun c => c.tag == q "subject") = [] :=
    filter_tag_eq_nil_of_tag (fun c hc => tag_of_mem_origin_block hc) (by decide)
  have h8 : ((host_block e).filter fun c => c.tag == q "subject") = [] :=
    filter_tag_eq_nil_of_tag (fun c hc => tag_of_mem_host_block hc) (by decide)
  have h9 : ((note_block e).filter fun c => c.tag == q "subject") = [] :=
    filter_tag_eq_nil_of_tag (fun c hc => tag_of_mem_note_block hc) (by decide)
  have h10 : ((location_block e).filter fun c => c.tag == q "subject") = [] :=
    filter_tag_eq_nil_of_tag (fun c hc => tag_of_mem_location_block hc) (by decide)
  have h11 : (([record_info now uid]).filter fun c => c.tag == q "subject") = [] :=
    filter_tag_eq_nil_of_tag (fun c hc => tag_of_mem_record_info_singleton hc) (by decide)
  have h12 : ((add_text "typeOfResource" (some "text") []).filter
      fun c => c.tag == q "subject") = [] :=
    filter_tag_eq_nil_of_tag (fun c hc => tag_of_mem_add_text hc) (by decide)
  rw [filter_tag_children, h1, h2, h3, h4, h5, h6, h7, h8, h9, h10, h11, h12]
  simp

lemma filter_identifier_children (e : Entry) (now uid : String) :
    ((entry_to_mods e now uid).children.filter fun c => c.tag == q "identifier") =
      identifier_blocks e := by
  have h1 : ((title_block e).filter fun c => c.tag == q "identifier") = [] :=
    filter_tag_eq_nil_of_tag (fun c hc => tag_of_mem_title_block hc) (by decide)
  have h2 : ((name_blocks e).filter fun c => c.tag == q "identifier") = [] :=
    filter_tag_eq_nil_of_tag (fun c hc => tag_of_mem_name_blocks hc) (by decide)
  have h3 : ((lang_block e).filter fun c => c.tag == q "identifier") = [] :=
    filter_tag_eq_nil_of_tag (fun c hc => tag_of_mem_lang_block hc) (by decide)
  have h4 : ((subject_blocks e).filter fun c => c.tag == q "identifier") = [] :=
    filter_tag_eq_nil_of_tag (fun c hc => tag_of_mem_subject_blocks hc) (by decide)
  have h5 : ((identifier_blocks e).filter fun c => c.tag == q "identifier") =
      identifier_blocks e :=
    filter_tag_eq_self_of_tag fun c hc => tag_of_mem_identifier_blocks hc
  have h6 : ((abstract_block e).filter fun c => c.tag == q "identifier") = [] :=
    filter_tag_eq_nil_of_tag (fun c hc => tag_of_mem_abstract_block hc) (by decide)
  have h7 : ((origin_block e).filter fun c => c.tag == q "identifier") = [] :=
    filter_tag_eq_nil_of_tag (fun c hc => tag_of_mem_origin_block hc) (by decide)
  have h8 : ((host_block e).filter fun c => c.tag == q "identifier") = [] :=
    filter_tag_eq_nil_of_tag (fun c hc => tag_of_mem_host_block hc) (by decide)
  have h9 : ((note_block e).filter fun c => c.tag == q "identifier") = [] :=
    filter_tag_eq_nil_of_tag (fun c hc => tag_of_mem_note_block hc) (by decide)
  have h10 : ((location_block e).filter fun c => c.tag == q "identifier") = [] :=
    filter_tag_eq_nil_of_tag (fun c hc => tag_of_mem_location_block hc) (by decide)
  have h11 : (([record_info now uid]).filter fun c => c.tag == q "identifier") = [] :=
    filter_tag_eq_nil_of_tag (fun c hc => tag_of_mem_record_info_singleton hc) (by decide)
  have h12 : ((add_text "typeOfResource" (some "text") []).filter
      fun c => c.tag == q "identifier") = [] :=
    filter_tag_eq_nil_of_tag (fun c hc => tag_of_mem_add_text hc) (by decide)
  rw [filter_tag_children, h1, h2, h3, h4, h5, h6, h7, h8, h9, h10, h11, h12]
  simp

lemma filter_relatedItem_children (e : Entry) (now uid : String) :
    ((entry_to_mods e now uid).children.filter fun c => c.tag == q "relatedItem") =
      host_block e := by
  have h1 : ((title_block e).filter fun c => c.tag == q "relatedItem") = [] :=
    filter_tag_eq_nil_of_tag (fun c hc => tag_of_mem_title_block hc) (by decide)
  have h2 : ((name_blocks e).filter fun c => c.tag == q "relatedItem") = [] :=
    filter_tag_eq_nil_of_tag (fun c hc => tag_of_mem_name_blocks hc) (by decide)
  have h3 : ((lang_block e).filter fun c => c.tag == q "relatedItem") = [] :=
    filter_tag_eq_nil_of_tag (fun c hc => tag_of_mem_lang_block hc) (by decide)
  have h4 : ((subject_blocks e).filter fun c => c.tag == q "relatedItem") = [] :=
    filter_tag_eq_nil_of_tag (fun c hc => tag_of_mem_subject_blocks hc) (by decide)
  have h5 : ((identifier_blocks e).filter fun c => c.tag == q "relatedItem") = [] :=
    filter_tag_eq_nil_of_tag (fun c hc => tag_of_mem_identifier_blocks hc) (by decide)
  have h6 : ((abstract_block e).filter fun c => c.tag == q "relatedItem") = [] :=
    filter_tag_eq_nil_of_tag (fun c hc => tag_of_mem_abstract_block hc) (by decide)
  have h7 : ((origin_block e).filter fun c => c.tag == q "relatedItem") = [] :=
    filter_tag_eq_nil_of_tag (fun c hc => tag_of_mem_origin_block hc) (by decide)
  have h8 : ((host_block e).filter fun c => c.tag == q "relatedItem") = host_block e :=
    filter_tag_eq_self_of_tag fun c hc => tag_of_mem_host_block hc
  have h9 : ((note_block e).filter fun c => c.tag == q "relatedItem") = [] :=
    filter_tag_eq_nil_of_tag (fun c hc => tag_of_mem_note_block hc) (by decide)
  have h10 : ((location_block e).filter fun c => c.tag == q "relatedItem") = [] :=
    filter_tag_eq_nil_of_tag (fun c hc => tag_of_mem_location_block hc) (by decide)
  have h11 : (([record_info now uid]).filter fun c => c.tag == q "relatedItem") = [] :=
    filter_tag_eq_nil_of_tag (fun c hc => tag_of_mem_record_info_singleton hc) (by decide)
  have h12 : ((add_text "typeOfResource" (some "text") []).filter
      fun c => c.tag == q "relatedItem") = [] :=
    filter_tag_eq_nil_of_tag (fun c hc => tag_of_mem_add_text hc) (by decide)
  rw [filter_tag_children, h1, h2, h3, h4, h5, h6, h7, h8, h9, h10, h11, h12]
  simp

/-- C1 (counterexample): the claimed invariant "a node is emitted iff its
source value is non-empty after trimming, empty fields produce no node, sole
exception typeOfResource" fails on the code: a record whose `title` field is
present but empty still gets a `titleInfo` node, and a whitespace-only title
(empty after trimming) gets a `title` node whose text is that whitespace. -/
theorem empty_title_still_emits_node :
    countTag (q "titleInfo")
      (entry_to_mods { title := some "" } "2024-01-01T00:00:00" "id-0").children = 1 ∧
    (entry_to_mods { title := some " " } "2024-01-01T00:00:00" "id-0").children =
      [Elem.mk (q "titleInfo") [] none [Elem.mk (q "title") [] (some " ") []],
       record_info "2024-01-01T00:00:00" "id-0",
       Elem.mk (q "typeOfResource") [] (some "text") []] :=
  ⟨rfl, rfl⟩

/-- C1 (amended): every text node goes through `add_text` and is emitted iff
its raw source value is non-empty (Python truthiness, no trimming); the
containers keyed on field presence — `titleInfo` for title, `originInfo` for
year, `location` for url — appear whenever their key is present even with an
empty value; and `recordInfo` is always emitted alongside `typeOfResource`. -/
theorem emission_rule (e : Entry) (now uid : String) :
    (∀ (tg : String) (tx : Option String) (ab : List (String × String)),
      countTag (q tg) (add_text tg tx ab) = if truthy tx then 1 else 0) ∧
    countTag (q "titleInfo") (entry_to_mods e now uid).children
      = (if e.title.isSome then 1 else 0) ∧
    countTag (q "originInfo") (entry_to_mods e now uid).children
      = (if e.year.isSome then 1 else 0) ∧
    countTag (q "location") (entry_to_mods e now uid).children
      = (if e.url.isSome then 1 else 0) ∧
    countTag (q "abstract") (entry_to_mods e now uid).children
      = (if truthy e.abstract then 1 else 0) ∧
    countTag (q "note") (entry_to_mods e now uid).children
      = (if truthy e.status then 1 else 0) ∧
    countTag (q "recordInfo") (entry_to_mods e now uid).children = 1 ∧
    countTag (q "typeOfResource") (entry_to_mods e now uid).children = 1 :=
  ⟨countTag_add_text_self,
   countTag_titleInfo_children e now uid, countTag_originInfo_children e now uid,
   countTag_location_children e now uid, countTag_abstract_children e now uid,
   countTag_note_children e now uid, countTag_recordInfo_children e now uid,
   countTag_typeOfResource_children e now uid⟩

/-- C2 (counterexample): a person record with no given-name tokens and no
family-name tokens is a possible author-list member, and `split_name` maps it
to the pair `("", "")` — both parts empty, contrary to the claimed
invariant. -/
theorem split_name_can_be_both_empty :
    split_name (Person.mk [] []) = ("", "") ∧
    Person.mk [] [] ∈ Entry.author_list { author_list := [Person.mk [] []] } :=
  ⟨rfl, by simp⟩

/-- C2 (amended): every author yields exactly one (given, family) pair, where
either part may be empty; a part is empty exactly when its token list
space-joins to the empty string — the list is empty or is the single empty
token — so both parts are empty exactly when both token lists are of that
degenerate shape (in particular for an author with no tokens at all). -/
theorem split_name_rule :
    (∀ p : Person,
      (split_name p).1 = "" ↔ p.first_names = [] ∨ p.first_names = [""]) ∧
    (∀ p : Person,
      (split_name p).2 = "" ↔ p.last_names = [] ∨ p.last_names = [""]) ∧
    (∀ p : Person,
      ((split_name p).1 = "" ∧ (split_name p).2 = "") ↔
        ((p.first_names = [] ∨ p.first_names = [""]) ∧
         (p.last_names = [] ∨ p.last_names = [""]))) ∧
    split_name (Person.mk ["Jane"] ["Doe"]) = ("Jane", "Doe") :=
  ⟨fun p => intercalate_space_eq_empty_iff p.first_names,
   fun p => intercalate_space_eq_empty_iff p.last_names,
   fun p => and_congr (intercalate_space_eq_empty_iff p.first_names)
     (intercalate_space_eq_empty_iff p.last_names),
   rfl⟩

/-- C3: the raw author-name split (modelled from the spec, the splitting code
living in the external bibtexparser customization): with a comma, the text
before the first comma is the family name and the trimmed remainder the given
name(s); without one, the last whitespace token is the family name and the
preceding tokens joined are the given name(s); with the three spec examples. -/
theorem author_split_rule :
    (∀ s : String, (',') ∈ s.data →
      split_raw_name s =
        (pyStrip ⟨(s.data.dropWhile fun c => c ≠ ',').drop 1⟩,
         pyStrip ⟨s.data.takeWhile fun c => c ≠ ','⟩)) ∧
    (∀ (s : String) (toks : List String) (fam : String), (',') ∉ s.data →
      (((pySplitP Char.isWhitespace s.data).map fun l => (⟨l⟩ : String)).filter
        fun t => t ≠ "") = toks ++ [fam] →
      split_raw_name s = (String.intercalate " " toks, fam)) ∧
    split_raw_name "Doe, Jane" = ("Jane", "Doe") ∧
    split_raw_name "Jane Doe" = ("Jane", "Doe") ∧
    split_raw_name "Doe" = ("", "Doe") := by
  refine ⟨?_, ?_, by decide, by decide, by decide⟩
  · intro s hs
    unfold split_raw_name
    rw [if_pos hs]
  · intro s toks fam hs htoks
    unfold split_raw_name
    rw [if_neg hs]
    dsimp only
    rw [htoks]
    simp [List.getLast?_concat, List.dropLast_concat]

/-- C3 witness: the whitespace branch of the rule applied at a concrete
name. -/
theorem author_split_rule_witness :
    split_raw_name "Ann Lee" = (String.intercalate " " ["Ann"], "Lee") :=
  author_split_rule.2.1 "Ann Lee" ["Ann"] "Lee" (by decide) (by decide)

/-- C4: the page range comes from replacing `--` by `-` and splitting on `-`;
start is the leading part, end the first trailing part when there is one and
otherwise the start; the two spec examples hold, and a record with no `pages`
field gets no extent. -/
theorem page_range_rule :
    (∀ (p s : String) (rest : List String),
      pySplit '-' (replaceDoubleDash p) = s :: rest →
      page_range p = (s, rest.headD s)) ∧
    page_range "10--20" = ("10", "20") ∧
    page_range "5" = ("5", "5") ∧
    (∀ e : Entry, e.pages = none → extent_block e = []) := by
  refine ⟨?_, by decide, by decide, ?_⟩
  · intro p s rest h
    unfold page_range
    rw [h]
  · intro e h
    unfold extent_block
    rw [h]

/-- C4 witness: the general split rule applied at a concrete page string, and
the missing-pages case applied at the empty record. -/
theorem page_range_rule_witness :
    page_range "3-4" = ("3", "4") ∧ extent_block {} = [] :=
  ⟨page_range_rule.1 "3-4" "3" ["4"] (by decide), page_range_rule.2.2.2 {} rfl⟩

/-- C5: the emitted `subject` nodes are exactly one per surviving keyword of
the normalization (replace `;` by `,`, split on `,`, trim, drop empties),
order and duplicates preserved, each holding one `topic` with the keyword as
text; with the three spec examples. -/
theorem keywords_rule :
    (∀ (e : Entry) (now uid : String),
      ((entry_to_mods e now uid).children.filter fun c => c.tag == q "subject") =
        (keyword_list ((e.keywords).getD "")).map
          (fun k => Elem.mk (q "subject") [] none [Elem.mk (q "topic") [] (some k) []])) ∧
    keyword_list "ai; ml, nlp" = ["ai", "ml", "nlp"] ∧
    keyword_list "" = [] ∧
    keyword_list "a,,b" = ["a", "b"] :=
  ⟨fun e now uid => by rw [filter_subject_children, subject_blocks_eq_map],
   by decide, rfl, by decide⟩

/-- C6 (counterexample): a record whose `doi` field is present with the empty
string emits no `identifier` node at all, contrary to "exactly one identifier
node per present field". -/
theorem present_empty_doi_no_identifier :
    ((entry_to_mods { doi := some "" } "2024-01-01T00:00:00" "id-0").children.filter
      fun c => c.tag == q "identifier") = [] ∧
    Entry.doi { doi := some "" } = some "" :=
  ⟨rfl, rfl⟩

/-- C6 (amended): the top-level `identifier` nodes are exactly those of the
fixed order doi, isbn, issn, hdl, isi — one per present *non-empty* field,
with `type` attribute the field name, regardless of input order. -/
theorem identifier_rule (e : Entry) (now uid : String) :
    ((entry_to_mods e now uid).children.filter fun c => c.tag == q "identifier") =
      expected_identifiers e := by
  rw [filter_identifier_children, identifier_blocks_eq]

/-- C8: the record with every optional field absent produces exactly the
`recordInfo` block and the `typeOfResource="text"` node, nothing else. -/
theorem empty_record_minimal (now uid : String) :
    entry_to_mods {} now uid =
      Elem.mk (q "mods") [("version", "3.3")] none
        [record_info now uid, Elem.mk (q "typeOfResource") [] (some "text") []] :=
  rfl

/-- C9: whenever the host title is truthy the single `relatedItem[type=host]`
always carries the `part` child (even with volume, number, pages and year all
absent, leaving it empty), and the `extent[unit=page]` child exists exactly
when the `pages` key is present — even when its value is the empty string. -/
theorem host_part_extent_rule :
    (∀ (e : Entry) (now uid : String), truthy (host_title e) = true →
      ((entry_to_mods e now uid).children.filter fun c => c.tag == q "relatedItem") =
        [host_elem e] ∧
      part_elem e ∈ (host_elem e).children) ∧
    (∀ (e : Entry) (p : String), e.pages = some p →
      extent_block e = [Elem.mk (q "extent") [("unit", "page")] none
        (add_text "start" (some (page_range p).1) [] ++
         add_text "end" (some (page_range p).2) [])]) ∧
    part_elem { journal := some "J" } = Elem.mk (q "part") [] none [] ∧
    extent_block { journal := some "J", pages := some "" } =
      [Elem.mk (q "extent") [("unit", "page")] none []] := by
  refine ⟨?_, ?_, rfl, rfl⟩
  · intro e now uid h
    refine ⟨?_, ?_⟩
    · rw [filter_relatedItem_children, host_block_of_truthy h]
    · simp [host_elem, Elem.children]
  · intro e p hp
    unfold extent_block
    rw [hp]

/-- C9 witness: the rule applied at a concrete record with a journal and a
single-page `pages` value. -/
theorem host_part_extent_rule_witness :
    ((entry_to_mods { journal := some "J", pages := some "5" }
        "2024-01-01T00:00:00" "id-0").children.filter
      fun c => c.tag == q "relatedItem") =
      [host_elem { journal := some "J", pages := some "5" }] ∧
    extent_block { journal := some "J", pages := some "5" } =
      [Elem.mk (q "extent") [("unit", "page")] none
        (add_text "start" (some (page_range "5").1) [] ++
         add_text "end" (some (page_range "5").2) [])] :=
  ⟨(host_part_extent_rule.1 { journal := some "J", pages := some "5" }
      "2024-01-01T00:00:00" "id-0" (by decide)).1,
   host_part_extent_rule.2.1 { journal := some "J", pages := some "5" } "5" rfl⟩

/-- C10: with the timestamp and identifier generation injected as explicit
inputs, the conversion is a pure function — two runs on equal inputs give the
identical serialized document — and the collection is built record by record
with no state shared between records: each child is the image of its own
entry and its own injected pair. -/
theorem conversion_deterministic :
    (∀ (entries₁ entries₂ : List Entry) (gens₁ gens₂ : List (String × String)),
      entries₁ = entries₂ → gens₁ = gens₂ →
      bibtex_to_mods entries₁ gens₁ = bibtex_to_mods entries₂ gens₂) ∧
    (∀ (e : Entry) (g : String × String) (entries : List Entry)
        (gens : List (String × String)),
      (build_collection (e :: entries) (g :: gens)).children =
        entry_to_mods e g.1 g.2 :: (build_collection entries gens).children) ∧
    (∀ (entries : List Entry) (gens : List (String × String)),
      (build_collection entries gens).children =
        (entries.zip gens).map fun eg => entry_to_mods eg.1 eg.2.1 eg.2.2) := by
  refine ⟨?_, ?_, fun entries gens => rfl⟩
  · intro e₁ e₂ g₁ g₂ he hg
    subst he
    subst hg
    rfl
  · intro e g entries gens
    simp [build_collection, Elem.children, List.zip_cons_cons]

/-- C10 witness: determinism applied at a concrete one-record input. -/
theorem conversion_deterministic_witness :
    bibtex_to_mods [{}] [("2024-01-01T00:00:00", "id-0")] =
      bibtex_to_mods [{}] [("2024-01-01T00:00:00", "id-0")] :=
  conversion_deterministic.1 [{}] [{}] [("2024-01-01T00:00:00", "id-0")]
    [("2024-01-01T00:00:00", "id-0")] rfl rfl

end BibToMods
